import Mathlib

/-!
Shallow embedding of `strategies.py`: example move-selection strategies
(`RandomMove`, `Alphabetical`, `FirstMove`), the `MinimalEngine` /
`FillerEngine` helpers, and the `CO456Protocol` line-based adapter that
bridges an external child process to the bot framework.

Moves and UCI parsing follow the python-chess `Move` class; the board is
abstract (its legal-move list, SAN rendering and move stack are supplied
by the external chess rules library).  Exceptions are modelled as
explicit error values; a protocol exchange is modelled as a pure function
from the engine state, the command arguments and the child's reply lines
to the updated state, the lines sent, the number of replies consumed and
the command outcome.
-/

/-- A chess move as in the python-chess `Move` class: origin square,
target square, optional promotion piece type, optional drop piece type. -/
structure Move where
  from_square : Nat
  to_square : Nat
  promotion : Option Nat
  drop : Option Nat
  deriving DecidableEq

/-- python-chess `FILE_NAMES`. -/
def FILE_NAMES : List Char := ['a', 'b', 'c', 'd', 'e', 'f', 'g', 'h']

/-- python-chess `RANK_NAMES`. -/
def RANK_NAMES : List Char := ['1', '2', '3', '4', '5', '6', '7', '8']

/-- python-chess `SQUARE_NAMES`: square `i` is named `SQUARE_NAMES[i]`,
with `a1 = 0`, `b1 = 1`, ..., `h8 = 63`. -/
def SQUARE_NAMES : List String :=
  RANK_NAMES.bind (fun r => FILE_NAMES.map (fun f => String.mk [f, r]))

/-- python-chess `PIECE_SYMBOLS`: entry 0 is `None`, piece types 1..6 are
pawn, knight, bishop, rook, queen, king. -/
def PIECE_SYMBOLS : List (Option Char) :=
  [none, some 'p', some 'n', some 'b', some 'r', some 'q', some 'k']

/-- Python `list.index`, returning `none` where Python raises `ValueError`. -/
def listIndex {α : Type} [DecidableEq α] (a : α) : List α → Option Nat
  | [] => none
  | x :: xs => if x = a then some 0 else (listIndex a xs).map (fun n => n + 1)

/-- `SQUARE_NAMES.index(s)` with `ValueError` as `none`. -/
def square_index (s : String) : Option Nat := listIndex s SQUARE_NAMES

/-- `PIECE_SYMBOLS.index(c)` with `ValueError` as `none`. -/
def piece_symbol_index (c : Char) : Option Nat := listIndex (some c) PIECE_SYMBOLS

/-- python-chess `piece_symbol(pt)` (total with a blank default, as it is
only applied to stored piece types 1..6). -/
def piece_symbol (pt : Nat) : Char := (PIECE_SYMBOLS.getD pt none).getD ' '

/-- python-chess `Move.from_uci`: `"0000"` is the null move; a 4-character
string whose second character is `@` is a drop; otherwise a 4- or
5-character string is origin square, target square and optional promotion
piece.  `none` models the raised `InvalidMoveError`/`ValueError`. -/
def Move.from_uci (uci : String) : Option Move :=
  let cs : List Char := uci.data
  if uci = "0000" then some ⟨0, 0, none, none⟩
  else if cs.length = 4 ∧ cs.getD 1 ' ' = '@' then
    match piece_symbol_index (cs.getD 0 ' ').toLower, square_index (String.mk (cs.drop 2)) with
    | some d, some sq => some ⟨sq, sq, none, some d⟩
    | _, _ => none
  else if 4 ≤ cs.length ∧ cs.length ≤ 5 then
    let promo : Option (Option Nat) :=
      if cs.length = 5 then (piece_symbol_index (cs.getD 4 ' ')).map some else some none
    match square_index (String.mk (cs.take 2)), square_index (String.mk ((cs.drop 2).take 2)),
        promo with
    | some f, some t, some p => if f = t then none else some ⟨f, t, p, none⟩
    | _, _, _ => none
  else none

/-- python-chess `Move.__bool__`: a move is truthy when any component is
non-zero / present. -/
def Move.nonzero (m : Move) : Bool :=
  decide (m.from_square ≠ 0) || decide (m.to_square ≠ 0) || m.promotion.isSome || m.drop.isSome

/-- python-chess `Move.uci` (also `str(move)`). -/
def Move.uci (m : Move) : String :=
  match m.drop with
  | some d => String.mk [(piece_symbol d).toUpper, '@'] ++ SQUARE_NAMES.getD m.to_square ""
  | none =>
    match m.promotion with
    | some p =>
      SQUARE_NAMES.getD m.from_square "" ++ SQUARE_NAMES.getD m.to_square ""
        ++ String.mk [piece_symbol p]
    | none =>
      if m.nonzero then SQUARE_NAMES.getD m.from_square "" ++ SQUARE_NAMES.getD m.to_square ""
      else "0000"

/-- python-chess `PlayResult` as constructed in `strategies.py`: a move,
a ponder move, and the keyword flags (the `info` mapping is always absent
here). -/
structure PlayResult where
  move : Option Move
  ponder : Option Move
  draw_offered : Bool
  resigned : Bool
  deriving DecidableEq

/-- The board, as supplied by the external chess rules library: the
strategies and the protocol adapter only consult its legal-move list, its
SAN rendering of moves and its move stack. -/
structure Board where
  legal_moves : List Move
  san : Move → String
  move_stack : List Move

/-- The Python exceptions that the embedded code can raise. -/
inductive PyError where
  | engineError (msg : String)
  | invalidMove (uci : String)
  | stopIteration
  | indexError
  | notImplementedError (msg : String)
  deriving DecidableEq

/-- `MinimalEngine.search`: always raises `NotImplementedError`. -/
def MinimalEngine.search {L : Type} (board : Board) (time_limit : L) (ponder : Bool)
    (draw_offered : Bool) : Except PyError PlayResult :=
  Except.error (PyError.notImplementedError "The search method is not implemented")

/-- `RandomMove.search`: `random.choice(list(board.legal_moves))`,
with the random draw supplied as an index `pick`; `none` models the
`IndexError` that `random.choice` raises on an empty sequence. -/
def RandomMove.search (board : Board) (pick : Nat) : Option PlayResult :=
  match board.legal_moves with
  | [] => none
  | m :: ms => some ⟨some ((m :: ms).getD (pick % (ms.length + 1)) m), none, false, false⟩

/-- The key order used by `Alphabetical.search`: compare SAN strings. -/
def sanLe (board : Board) (a b : Move) : Prop := board.san a ≤ board.san b

instance (board : Board) : DecidableRel (sanLe board) :=
  fun a b => inferInstanceAs (Decidable (board.san a ≤ board.san b))

/-- `Alphabetical.search`: sort the legal moves by `board.san` (Python's
stable sort, embedded as a stable insertion sort) and take the first;
`none` models the `IndexError` of `moves[0]` on an empty list. -/
def Alphabetical.search (board : Board) : Option PlayResult :=
  match List.insertionSort (sanLe board) board.legal_moves with
  | [] => none
  | m :: _ => some ⟨some m, none, false, false⟩

/-- The key order used by `FirstMove.search`: compare `str(move)`, which is
the UCI string. -/
def uciLe (a b : Move) : Prop := a.uci ≤ b.uci

instance : DecidableRel uciLe :=
  fun a b => inferInstanceAs (Decidable (a.uci ≤ b.uci))

/-- `FirstMove.search`: sort the legal moves by `str` and take the first;
`none` models the `IndexError` of `moves[0]` on an empty list. -/
def FirstMove.search (board : Board) : Option PlayResult :=
  match List.insertionSort uciLe board.legal_moves with
  | [] => none
  | m :: _ => some ⟨some m, none, false, false⟩

/-- The mutable state of a `CO456Protocol` engine: the `initialized` flag
managed by the `chess.engine.Protocol` machinery and the `first_move`
buffer set in `__init__`. -/
structure EngineState where
  initialized : Bool
  first_move : String
  deriving DecidableEq

/-- Outcome of a protocol command: still waiting for a line, finished with
a result, or failed with a raised exception. -/
inductive CmdOutcome (α : Type) where
  | pending
  | finished (r : α)
  | failed (e : PyError)
  deriving DecidableEq

/-- Result of a command's `start` phase: updated engine state, lines sent
to the child process, and the outcome so far. -/
structure Step (α : Type) where
  engine : EngineState
  sent : List String
  outcome : CmdOutcome α
  deriving DecidableEq

/-- Result of a whole `communicate` exchange: final engine state, lines
sent, number of reply lines consumed, and the outcome. -/
structure Exchange (α : Type) where
  engine : EngineState
  sent : List String
  consumed : Nat
  outcome : CmdOutcome α
  deriving DecidableEq

/-- `chess.engine.BaseCommand.check_initialized` (the default, used by the
configure and play commands): raise `EngineError` when the engine is not
yet initialized. -/
def BaseCommand.check_initialized (eng : EngineState) : Option PyError :=
  if eng.initialized then none
  else some (PyError.engineError "tried to run command, but engine is not initialized")

/-- `InitializeCommand.check_initialized` (the override in
`CO456Protocol.initializeEngine`): raise `EngineError` when already initialized. -/
def InitializeCommand.check_initialized (eng : EngineState) : Option PyError :=
  if eng.initialized then some (PyError.engineError "engine already initialized") else none

/-- `CO456Protocol.initializeEngine`: the `InitializeCommand` checks the flag,
then sets it and finishes, sending nothing. -/
def CO456Protocol.initializeEngine (eng : EngineState) : Exchange Unit :=
  match InitializeCommand.check_initialized eng with
  | some e => ⟨eng, [], 0, CmdOutcome.failed e⟩
  | none => ⟨⟨true, eng.first_move⟩, [], 0, CmdOutcome.finished ()⟩

/-- The `communicate` reply loop: feed the child's reply lines one at a
time to the command's `line_received` until the command is no longer
pending, counting the lines consumed; with no lines left the command
stays pending (the adapter blocks). -/
def feedLines {α : Type} (lr : EngineState → String → EngineState × CmdOutcome α) :
    EngineState → List String → EngineState × Nat × CmdOutcome α
  | eng, [] => (eng, 0, CmdOutcome.pending)
  | eng, line :: rest =>
    match lr eng line with
    | (eng1, CmdOutcome.pending) =>
      match feedLines lr eng1 rest with
      | (eng2, n, o) => (eng2, n + 1, o)
    | (eng1, o) => (eng1, 1, o)

/-- Python `options.get(k)` on the configuration mapping. -/
def dictGet (options : List (String × String)) (k : String) : Option String :=
  (options.find? (fun p => p.1 == k)).map (fun p => p.2)

/-- `ConfigureCommand.start`: when `"color"` is present, send its value;
finish immediately when the color is `"black"`, otherwise wait for the
child's reply. -/
def ConfigureCommand.start (options : List (String × String)) :
    List String × CmdOutcome Unit :=
  match dictGet options "color" with
  | some c => if c = "black" then ([c], CmdOutcome.finished ()) else ([c], CmdOutcome.pending)
  | none => ([], CmdOutcome.pending)

/-- `ConfigureCommand.line_received`: store the line in
`engine.first_move` and finish. -/
def ConfigureCommand.line_received (eng : EngineState) (line : String) :
    EngineState × CmdOutcome Unit :=
  (⟨eng.initialized, line⟩, CmdOutcome.finished ())

/-- `CO456Protocol.configure` as a whole `communicate` exchange. -/
def CO456Protocol.configure (eng : EngineState) (options : List (String × String))
    (replies : List String) : Exchange Unit :=
  match BaseCommand.check_initialized eng with
  | some e => ⟨eng, [], 0, CmdOutcome.failed e⟩
  | none =>
    match ConfigureCommand.start options with
    | (sent, CmdOutcome.pending) =>
      let f := feedLines ConfigureCommand.line_received eng replies
      ⟨f.1, sent, f.2.1, f.2.2⟩
    | (sent, o) => ⟨eng, sent, 0, o⟩

/-- `PlayCommand.start`: a stored first move is returned at once (clearing
the buffer; a malformed stored move raises while leaving the buffer);
otherwise the last move of a non-empty move stack is sent and the command
waits; with neither, nothing is sent and the command waits. -/
def PlayCommand.start (eng : EngineState) (board : Board) : Step PlayResult :=
  if eng.first_move ≠ "" then
    match Move.from_uci eng.first_move with
    | some m =>
      ⟨⟨eng.initialized, ""⟩, [], CmdOutcome.finished ⟨some m, none, false, false⟩⟩
    | none => ⟨eng, [], CmdOutcome.failed (PyError.invalidMove eng.first_move)⟩
  else
    match board.move_stack.getLast? with
    | some m => ⟨eng, [m.uci], CmdOutcome.pending⟩
    | none => ⟨eng, [], CmdOutcome.pending⟩

/-- `PlayCommand.line_received`: the literal line `"invalid"` resigns with
the first legal move (`next` on an empty legal-move iterator raises
`StopIteration`); any other line is parsed as a UCI move (a parse failure
raises). -/
def PlayCommand.line_received (board : Board) (line : String) : CmdOutcome PlayResult :=
  if line = "invalid" then
    match board.legal_moves with
    | [] => CmdOutcome.failed PyError.stopIteration
    | m :: _ => CmdOutcome.finished ⟨some m, none, false, true⟩
  else
    match Move.from_uci line with
    | some m => CmdOutcome.finished ⟨some m, none, false, false⟩
    | none => CmdOutcome.failed (PyError.invalidMove line)

/-- `CO456Protocol.play` as a whole `communicate` exchange. -/
def CO456Protocol.play (eng : EngineState) (board : Board) (replies : List String) :
    Exchange PlayResult :=
  match BaseCommand.check_initialized eng with
  | some e => ⟨eng, [], 0, CmdOutcome.failed e⟩
  | none =>
    match PlayCommand.start eng board with
    | ⟨eng1, sent, CmdOutcome.pending⟩ =>
      let f := feedLines (fun e line => (e, PlayCommand.line_received board line)) eng1 replies
      ⟨f.1, sent, f.2.1, f.2.2⟩
    | ⟨eng1, sent, o⟩ => ⟨eng1, sent, 0, o⟩

/-! ### Concrete fixtures used by witnesses and counterexamples -/

/-- The knight move b1c3 (squares 1 and 18). -/
def mvC : Move := ⟨1, 18, none, none⟩

/-- The pawn move a2a3 (squares 8 and 16). -/
def mvA : Move := ⟨8, 16, none, none⟩

/-- The pawn move e2e4 (squares 12 and 28). -/
def mvB : Move := ⟨12, 28, none, none⟩

/-- A sample board: two legal moves, a non-empty move stack. -/
def sampleBoard : Board :=
  ⟨[mvC, mvA], fun m => if m = mvC then "Nc3" else "a3", [mvB]⟩

/-- A board with no legal moves at all. -/
def emptyBoard : Board := ⟨[], fun _ => "", []⟩

/-- A board with no legal moves but a non-empty move stack. -/
def stuckBoard : Board := ⟨[], fun _ => "", [mvB]⟩

/-- A board whose last played move is a2a3. -/
def c1Board : Board := ⟨[mvA], fun _ => "a3", [mvA]⟩

/-- An initialized engine with no stored first move. -/
def engReady : EngineState := ⟨true, ""⟩

/-- An initialized engine holding the stored first move `"e2e4"`. -/
def engStored : EngineState := ⟨true, "e2e4"⟩

/-- The head of an insertion-sorted list is a member of the original list and
minimal for the (total, transitive) sorting relation. -/
theorem head_insertionSort_min {α : Type} (r : α → α → Prop) [DecidableRel r]
    (total : ∀ a b, r a b ∨ r b a) (tr : ∀ a b c, r a b → r b c → r a c)
    (l : List α) (m : α) (rest : List α)
    (h : List.insertionSort r l = m :: rest) :
    m ∈ l ∧ ∀ x ∈ l, r m x := by
  haveI : IsTotal α r := ⟨total⟩
  haveI : IsTrans α r := ⟨tr⟩
  have hp : List.Perm (List.insertionSort r l) l := List.perm_insertionSort r l
  rw [h] at hp
  have hsorted := List.sorted_insertionSort r l
  rw [h] at hsorted
  constructor
  · exact hp.mem_iff.mp (List.mem_cons_self m rest)
  · intro x hx
    rcases List.mem_cons.mp (hp.mem_iff.mpr hx) with h1 | h2
    · subst h1
      rcases total x x with hxx | hxx <;> exact hxx
    · exact List.rel_of_sorted_cons hsorted x h2

/-- A UCI string that parses to a move is not the empty string. -/
theorem from_uci_ne_empty {s : String} {m : Move} (h : Move.from_uci s = some m) :
    s ≠ "" := by
  intro he
  rw [he] at h
  have hnone : Move.from_uci "" = none := rfl
  rw [hnone] at h
  exact Option.noConfusion h

/-- `PlayCommand.line_received` always terminates the command: it is never
still pending after a line arrives. -/
theorem line_received_ne_pending (board : Board) (line : String) :
    PlayCommand.line_received board line ≠ CmdOutcome.pending := by
  unfold PlayCommand.line_received
  by_cases hv : line = "invalid"
  · simp only [hv, if_pos]
    cases board.legal_moves <;> simp
  · simp only [if_neg hv]
    cases Move.from_uci line <;> simp

/-- On an initialized engine with an empty first-move buffer and a non-empty
move stack, `PlayCommand.start` sends the last stacked move and stays
pending. -/
theorem play_start_sends_last (eng : EngineState) (board : Board) (m : Move)
    (hf : eng.first_move = "") (hs : board.move_stack.getLast? = some m) :
    PlayCommand.start eng board = ⟨eng, [m.uci], CmdOutcome.pending⟩ := by
  simp [PlayCommand.start, hf, hs]

/-- Under the same hypotheses, the whole `play` exchange hands the first reply
line to `PlayCommand.line_received` and its outcome is that verdict. -/
theorem play_outcome_cons (eng : EngineState) (board : Board) (m : Move)
    (line : String) (rest : List String) (hi : eng.initialized = true)
    (hf : eng.first_move = "") (hs : board.move_stack.getLast? = some m) :
    CO456Protocol.play eng board (line :: rest) =
      ⟨eng, [m.uci], 1, PlayCommand.line_received board line⟩ := by
  have hstart := play_start_sends_last eng board m hf hs
  have hlr := line_received_ne_pending board line
  unfold CO456Protocol.play
  simp only [BaseCommand.check_initialized, hi, if_pos, hstart]
  cases h : PlayCommand.line_received board line with
  | pending => exact absurd h hlr
  | finished r => simp [feedLines, h]
  | failed e => simp [feedLines, h]

/-- A non-empty list has a last element. -/
theorem getLast?_of_ne_nil {α : Type} {l : List α} (h : l ≠ []) :
    ∃ m, l.getLast? = some m := by
  cases hg : l.getLast? with
  | none => exact absurd (List.getLast?_eq_none_iff.mp hg) h
  | some m => exact ⟨m, rfl⟩

/-! ### Claim theorems -/

/-- Claim C3: for every board position with a non-empty set of legal moves,
`Alphabetical.search` returns a `PlayResult` whose move is a legal move that
is lexicographically first when the legal moves are ordered by their
standard algebraic notation `board.san`. -/
theorem C3_alphabetical_first_by_san (board : Board) (h : board.legal_moves ≠ []) :
    ∃ m : Move, Alphabetical.search board = some ⟨some m, none, false, false⟩ ∧
      m ∈ board.legal_moves ∧ ∀ x ∈ board.legal_moves, board.san m ≤ board.san x := by
  cases hsrt : List.insertionSort (sanLe board) board.legal_moves with
  | nil =>
    exfalso
    have hp : List.Perm (List.insertionSort (sanLe board) board.legal_moves)
        board.legal_moves := List.perm_insertionSort (sanLe board) board.legal_moves
    rw [hsrt] at hp
    exact h hp.symm.eq_nil
  | cons m rest =>
    have hmin := head_insertionSort_min (sanLe board)
      (fun a b => le_total (board.san a) (board.san b))
      (fun a b c hab hbc => le_trans hab hbc) board.legal_moves m rest hsrt
    refine ⟨m, ?_, hmin.1, hmin.2⟩
    unfold Alphabetical.search
    rw [hsrt]

/-- Witness for C3 at a concrete board with two legal moves. -/
theorem C3_witness :
    sampleBoard.legal_moves ≠ [] ∧
      ∃ m : Move, Alphabetical.search sampleBoard = some ⟨some m, none, false, false⟩ ∧
        m ∈ sampleBoard.legal_moves ∧
        ∀ x ∈ sampleBoard.legal_moves, sampleBoard.san m ≤ sampleBoard.san x :=
  ⟨by decide, C3_alphabetical_first_by_san sampleBoard (by decide)⟩

/-- Claim C5: for every board position and every combination of time limit,
ponder flag and draw-offered flag, `MinimalEngine.search` raises
`NotImplementedError` and returns no `PlayResult`. -/
theorem C5_minimal_engine_search_raises {L : Type} (board : Board) (time_limit : L)
    (ponder : Bool) (draw_offered : Bool) :
    MinimalEngine.search board time_limit ponder draw_offered =
        Except.error (PyError.notImplementedError "The search method is not implemented") ∧
      ∀ r : PlayResult,
        MinimalEngine.search board time_limit ponder draw_offered ≠ Except.ok r := by
  refine ⟨rfl, ?_⟩
  intro r hr
  simp [MinimalEngine.search] at hr

/-- Claim C9: on a board whose legal-move set is empty, `RandomMove.search`,
`Alphabetical.search` and `FirstMove.search` all fail (modelled as `none`),
and the resignation branch of `PlayCommand.line_received` fails with
`StopIteration` rather than returning a `PlayResult`. -/
theorem C9_empty_legal_moves_fail (board : Board) (pick : Nat)
    (h : board.legal_moves = []) :
    RandomMove.search board pick = none ∧ Alphabetical.search board = none ∧
      FirstMove.search board = none ∧
      PlayCommand.line_received board "invalid" = CmdOutcome.failed PyError.stopIteration := by
  refine ⟨?_, ?_, ?_, ?_⟩
  · simp [RandomMove.search, h]
  · simp [Alphabetical.search, h]
  · simp [FirstMove.search, h]
  · simp [PlayCommand.line_received, h]

/-- Witness for C9 at the concrete board with no legal moves. -/
theorem C9_witness :
    emptyBoard.legal_moves = [] ∧
      (RandomMove.search emptyBoard 0 = none ∧ Alphabetical.search emptyBoard = none ∧
        FirstMove.search emptyBoard = none ∧
        PlayCommand.line_received emptyBoard "invalid" =
          CmdOutcome.failed PyError.stopIteration) :=
  ⟨rfl, C9_empty_legal_moves_fail emptyBoard 0 rfl⟩

/-- Claim C10: the first call to `CO456Protocol.initializeEngine` sets the
initialized flag and completes without sending anything; a call on an
already-initialized engine raises `EngineError "engine already initialized"`
and leaves the engine state unchanged. -/
theorem C10_initialize_once (eng : EngineState) :
    (eng.initialized = false →
        CO456Protocol.initializeEngine eng =
          ⟨⟨true, eng.first_move⟩, [], 0, CmdOutcome.finished ()⟩) ∧
      (eng.initialized = true →
        CO456Protocol.initializeEngine eng =
          ⟨eng, [], 0, CmdOutcome.failed (PyError.engineError "engine already initialized")⟩) := by
  constructor <;> intro h <;>
    simp [CO456Protocol.initializeEngine, InitializeCommand.check_initialized, h]

/-- Witness for C10: a fresh engine initializes; an initialized one errors. -/
theorem C10_witness :
    CO456Protocol.initializeEngine ⟨false, ""⟩ = ⟨⟨true, ""⟩, [], 0, CmdOutcome.finished ()⟩ ∧
      CO456Protocol.initializeEngine ⟨true, ""⟩ =
        ⟨⟨true, ""⟩, [], 0,
          CmdOutcome.failed (PyError.engineError "engine already initialized")⟩ :=
  ⟨(C10_initialize_once ⟨false, ""⟩).1 rfl, (C10_initialize_once ⟨true, ""⟩).2 rfl⟩

/-- Claim C4: for every call to `CO456Protocol.configure` whose options
contain a `"color"` key, the adapter writes the associated color designator
value as exactly one text line to the child process. -/
theorem C4_configure_sends_color (eng : EngineState) (options : List (String × String))
    (replies : List String) (c : String) (hi : eng.initialized = true)
    (hc : dictGet options "color" = some c) :
    (CO456Protocol.configure eng options replies).sent = [c] := by
  unfold CO456Protocol.configure
  simp only [BaseCommand.check_initialized, hi, if_pos, ConfigureCommand.start, hc]
  by_cases hb : c = "black" <;> simp [hb]

/-- Witness for C4 at a concrete white-color configuration call. -/
theorem C4_witness :
    (engReady.initialized = true ∧
        dictGet [("color", "white")] "color" = some "white") ∧
      (CO456Protocol.configure engReady [("color", "white")] ["e2e4"]).sent = ["white"] :=
  ⟨⟨rfl, rfl⟩, C4_configure_sends_color engReady [("color", "white")] ["e2e4"] "white" rfl rfl⟩

/-- Claim C8: after `CO456Protocol.configure` with color `"white"` the
child's reply line is stored in `first_move`; the next `play` call returns
a `PlayResult` whose move is that stored line parsed as UCI, resets
`first_move` to the empty string, and sends nothing to (and consumes
nothing from) the child process. -/
theorem C8_white_stores_first_move (eng : EngineState) (options : List (String × String))
    (line : String) (m : Move) (board : Board) (crest preplies : List String)
    (hi : eng.initialized = true) (hc : dictGet options "color" = some "white")
    (hm : Move.from_uci line = some m) :
    CO456Protocol.configure eng options (line :: crest) =
        ⟨⟨true, line⟩, ["white"], 1, CmdOutcome.finished ()⟩ ∧
      CO456Protocol.play ⟨true, line⟩ board preplies =
        ⟨⟨true, ""⟩, [], 0, CmdOutcome.finished ⟨some m, none, false, false⟩⟩ := by
  have hne : line ≠ "" := from_uci_ne_empty hm
  constructor
  · unfold CO456Protocol.configure
    simp [BaseCommand.check_initialized, hi, ConfigureCommand.start, hc,
      feedLines, ConfigureCommand.line_received]
  · unfold CO456Protocol.play
    simp [BaseCommand.check_initialized, PlayCommand.start, hne, hm]

/-- Witness for C8 with reply line `"e2e4"`. -/
theorem C8_witness :
    (engReady.initialized = true ∧ dictGet [("color", "white")] "color" = some "white" ∧
        Move.from_uci "e2e4" = some mvB) ∧
      (CO456Protocol.configure engReady [("color", "white")] ["e2e4"] =
          ⟨⟨true, "e2e4"⟩, ["white"], 1, CmdOutcome.finished ()⟩ ∧
        CO456Protocol.play ⟨true, "e2e4"⟩ sampleBoard [] =
          ⟨⟨true, ""⟩, [], 0, CmdOutcome.finished ⟨some mvB, none, false, false⟩⟩) :=
  ⟨⟨rfl, rfl, by decide⟩,
    C8_white_stores_first_move engReady [("color", "white")] "e2e4" mvB sampleBoard [] []
      rfl rfl (by decide)⟩

/-- Claim C1 counterexample: a `play` call on an engine holding the stored
first move `"e2e4"`, against a board whose move stack ends in a2a3, sends
no line at all and completes with a result although no reply line was
received — so not every `play` call sends the last stacked move and blocks
for a reply. -/
theorem C1_counterexample :
    c1Board.move_stack ≠ [] ∧
      (CO456Protocol.play engStored c1Board []).sent = [] ∧
      (CO456Protocol.play engStored c1Board []).consumed = 0 ∧
      (CO456Protocol.play engStored c1Board []).outcome =
        CmdOutcome.finished ⟨some mvB, none, false, false⟩ :=
  ⟨by decide, by decide, by decide, by decide⟩

/-- Claim C1 (amended): for every `play` call on an initialized engine with
no stored first move and a non-empty move stack, the adapter sends exactly
the UCI text of the last move of the move stack, blocks while no reply line
is available, and completes after exactly one received line, parsing it as
a resignation signal or as a UCI move. -/
theorem C1_play_sends_last_move (eng : EngineState) (board : Board) (m : Move)
    (hi : eng.initialized = true) (hf : eng.first_move = "")
    (hs : board.move_stack.getLast? = some m) :
    (∀ replies, (CO456Protocol.play eng board replies).sent = [m.uci]) ∧
      (CO456Protocol.play eng board []).outcome = CmdOutcome.pending ∧
      (∀ line rest,
        (CO456Protocol.play eng board (line :: rest)).consumed = 1 ∧
        (CO456Protocol.play eng board (line :: rest)).outcome ≠ CmdOutcome.pending ∧
        ∀ r, (CO456Protocol.play eng board (line :: rest)).outcome = CmdOutcome.finished r →
          r.resigned = true ∨ ∃ mv, Move.from_uci line = some mv ∧ r.move = some mv) := by
  have hstart := play_start_sends_last eng board m hf hs
  refine ⟨?_, ?_, ?_⟩
  · intro replies
    unfold CO456Protocol.play
    simp only [BaseCommand.check_initialized, hi, if_pos, hstart]
  · unfold CO456Protocol.play
    simp [BaseCommand.check_initialized, hi, hstart, feedLines]
  · intro line rest
    rw [play_outcome_cons eng board m line rest hi hf hs]
    refine ⟨rfl, line_received_ne_pending board line, ?_⟩
    intro r hr
    simp only at hr
    unfold PlayCommand.line_received at hr
    by_cases hv : line = "invalid"
    · rw [if_pos hv] at hr
      cases hlm : board.legal_moves with
      | nil => rw [hlm] at hr; exact absurd hr (by simp)
      | cons a l =>
        rw [hlm] at hr
        left
        cases hr
        rfl
    · rw [if_neg hv] at hr
      cases hfu : Move.from_uci line with
      | none => rw [hfu] at hr; exact absurd hr (by simp)
      | some mv =>
        rw [hfu] at hr
        right
        cases hr
        exact ⟨mv, rfl, rfl⟩

/-- Witness for C1 (amended) at a concrete ready engine and sample board. -/
theorem C1_witness :
    (engReady.initialized = true ∧ engReady.first_move = "" ∧
        sampleBoard.move_stack.getLast? = some mvB) ∧
      ((∀ replies, (CO456Protocol.play engReady sampleBoard replies).sent = [mvB.uci]) ∧
        (CO456Protocol.play engReady sampleBoard []).outcome = CmdOutcome.pending ∧
        (∀ line rest,
          (CO456Protocol.play engReady sampleBoard (line :: rest)).consumed = 1 ∧
          (CO456Protocol.play engReady sampleBoard (line :: rest)).outcome ≠
            CmdOutcome.pending ∧
          ∀ r, (CO456Protocol.play engReady sampleBoard (line :: rest)).outcome =
              CmdOutcome.finished r →
            r.resigned = true ∨ ∃ mv, Move.from_uci line = some mv ∧ r.move = some mv)) :=
  ⟨⟨rfl, rfl, rfl⟩, C1_play_sends_last_move engReady sampleBoard mvB rfl rfl rfl⟩

/-- Claim C2 counterexample: on a board with no legal moves, the reply line
`"invalid"` makes the play exchange fail with `StopIteration` instead of
returning a `PlayResult` with `resigned` set to true — so the claim does
not hold for every reply line. -/
theorem C2_counterexample :
    (CO456Protocol.play engReady stuckBoard ["invalid"]).outcome =
      CmdOutcome.failed PyError.stopIteration := by decide

/-- Claim C2 (amended): for every line the child replies with during a play
exchange (initialized engine, no stored first move, non-empty move stack):
if the line is `"invalid"` and the board has at least one legal move, play
returns a `PlayResult` with `resigned` true whose move is the first legal
move; if the line is `"invalid"` and the board has no legal moves, the
exchange fails with `StopIteration`; otherwise play returns a `PlayResult`
whose move is the line parsed as a UCI move string when it parses, and the
exchange fails with an invalid-move error when it does not. -/
theorem C2_line_received_cases (eng : EngineState) (board : Board) (line : String)
    (rest : List String) (hi : eng.initialized = true) (hf : eng.first_move = "")
    (hs : board.move_stack ≠ []) :
    (line = "invalid" → board.legal_moves = [] →
        (CO456Protocol.play eng board (line :: rest)).outcome =
          CmdOutcome.failed PyError.stopIteration) ∧
      (∀ m ms, line = "invalid" → board.legal_moves = m :: ms →
        (CO456Protocol.play eng board (line :: rest)).outcome =
          CmdOutcome.finished ⟨some m, none, false, true⟩) ∧
      (∀ mv, line ≠ "invalid" → Move.from_uci line = some mv →
        (CO456Protocol.play eng board (line :: rest)).outcome =
          CmdOutcome.finished ⟨some mv, none, false, false⟩) ∧
      (line ≠ "invalid" → Move.from_uci line = none →
        (CO456Protocol.play eng board (line :: rest)).outcome =
          CmdOutcome.failed (PyError.invalidMove line)) := by
  obtain ⟨lm, hlm⟩ := getLast?_of_ne_nil hs
  have hout := play_outcome_cons eng board lm line rest hi hf hlm
  refine ⟨?_, ?_, ?_, ?_⟩
  · intro hv hleg
    rw [hout]
    simp [PlayCommand.line_received, hv, hleg]
  · intro m ms hv hleg
    rw [hout]
    simp [PlayCommand.line_received, hv, hleg]
  · intro mv hv hfu
    rw [hout]
    simp [PlayCommand.line_received, hv, hfu]
  · intro hv hfu
    rw [hout]
    simp [PlayCommand.line_received, hv, hfu]

/-- Witness for C2 (amended) at the reply line `"invalid"` on the sample
board. -/
theorem C2_witness :
    (engReady.initialized = true ∧ engReady.first_move = "" ∧
        sampleBoard.move_stack ≠ []) ∧
      (("invalid" = "invalid" → sampleBoard.legal_moves = [] →
          (CO456Protocol.play engReady sampleBoard ["invalid"]).outcome =
            CmdOutcome.failed PyError.stopIteration) ∧
        (∀ m ms, "invalid" = "invalid" → sampleBoard.legal_moves = m :: ms →
          (CO456Protocol.play engReady sampleBoard ["invalid"]).outcome =
            CmdOutcome.finished ⟨some m, none, false, true⟩) ∧
        (∀ mv, "invalid" ≠ "invalid" → Move.from_uci "invalid" = some mv →
          (CO456Protocol.play engReady sampleBoard ["invalid"]).outcome =
            CmdOutcome.finished ⟨some mv, none, false, false⟩) ∧
        ("invalid" ≠ "invalid" → Move.from_uci "invalid" = none →
          (CO456Protocol.play engReady sampleBoard ["invalid"]).outcome =
            CmdOutcome.failed (PyError.invalidMove "invalid"))) :=
  ⟨⟨rfl, rfl, by decide⟩,
    C2_line_received_cases engReady sampleBoard "invalid" [] rfl rfl (by decide)⟩

/-- Claim C6: during a play exchange with no stored first move and a
non-empty move stack, the adapter never completes the request before a
reply line has been received (with no reply it stays pending, and any
completed exchange has consumed exactly one line), and a single received
line always settles the one outstanding request. -/
theorem C6_play_blocks_for_reply (eng : EngineState) (board : Board)
    (hi : eng.initialized = true) (hf : eng.first_move = "")
    (hs : board.move_stack ≠ []) :
    (CO456Protocol.play eng board []).outcome = CmdOutcome.pending ∧
      (∀ replies, (CO456Protocol.play eng board replies).outcome ≠ CmdOutcome.pending →
        (CO456Protocol.play eng board replies).consumed = 1) ∧
      (∀ line rest,
        (CO456Protocol.play eng board (line :: rest)).consumed = 1 ∧
        (CO456Protocol.play eng board (line :: rest)).outcome ≠ CmdOutcome.pending) := by
  obtain ⟨lm, hlm⟩ := getLast?_of_ne_nil hs
  have hstart := play_start_sends_last eng board lm hf hlm
  have hnil : (CO456Protocol.play eng board []).outcome = CmdOutcome.pending := by
    unfold CO456Protocol.play
    simp [BaseCommand.check_initialized, hi, hstart, feedLines]
  refine ⟨hnil, ?_, ?_⟩
  · intro replies hne
    cases replies with
    | nil => exact absurd hnil hne
    | cons line rest => rw [play_outcome_cons eng board lm line rest hi hf hlm]
  · intro line rest
    rw [play_outcome_cons eng board lm line rest hi hf hlm]
    exact ⟨rfl, line_received_ne_pending board line⟩

/-- Witness for C6 at the ready engine and the sample board. -/
theorem C6_witness :
    (engReady.initialized = true ∧ engReady.first_move = "" ∧
        sampleBoard.move_stack ≠ []) ∧
      ((CO456Protocol.play engReady sampleBoard []).outcome = CmdOutcome.pending ∧
        (∀ replies,
          (CO456Protocol.play engReady sampleBoard replies).outcome ≠ CmdOutcome.pending →
          (CO456Protocol.play engReady sampleBoard replies).consumed = 1) ∧
        (∀ line rest,
          (CO456Protocol.play engReady sampleBoard (line :: rest)).consumed = 1 ∧
          (CO456Protocol.play engReady sampleBoard (line :: rest)).outcome ≠
            CmdOutcome.pending)) :=
  ⟨⟨rfl, rfl, by decide⟩, C6_play_blocks_for_reply engReady sampleBoard rfl rfl (by decide)⟩
